import Mathlib

set_option linter.unusedVariables false

/-!
Verification of a static file server script (serve.py).

The script wraps the standard library HTTP server: it overrides
end_headers to append three CORS headers, overrides log_message to print
one prefixed line, changes directory to dist at module level, and runs a
try/except block around the serve loop.  We embed the script's own code
directly; the behavior of the underlying HTTP library and of the Python
interpreter (uncaught exceptions) is modelled from the spec, marked in
the doc comments of the corresponding definitions.
-/

/-- A response header: a name and a value, as sent by send_header. -/
structure Header where
  name : String
  value : String
deriving DecidableEq, Repr

/-- The three CORS headers appended by the overridden end_headers, in the
order the source sends them (serve.py lines 18-20). -/
def corsHeaderList : List Header :=
  [⟨"Access-Control-Allow-Origin", "*"⟩,
   ⟨"Access-Control-Allow-Methods", "GET, POST, OPTIONS"⟩,
   ⟨"Access-Control-Allow-Headers", "Content-Type"⟩]

/-- The overridden end_headers of MyHTTPRequestHandler: it sends the three
CORS headers after whatever headers are already buffered, then delegates to
the base class to flush; the final header list of the response is the
buffered headers followed by the CORS headers. -/
def MyHTTPRequestHandler.end_headers (buffered : List Header) : List Header :=
  buffered ++ corsHeaderList

/-- State of a request handler that the overridden log_message could read
but does not: the client address and the current time. -/
structure HandlerState where
  clientAddress : String
  currentTimestamp : String
deriving DecidableEq, Repr

/-- Interpretation of the Python percent-format operator on a format string,
restricted to the conversions the HTTP library uses in its log calls. -/
def pyFormatChars : List Char → List String → List Char
  | [], _ => []
  | '%' :: 's' :: rest, a :: args => a.data ++ pyFormatChars rest args
  | '%' :: 'd' :: rest, a :: args => a.data ++ pyFormatChars rest args
  | '%' :: '%' :: rest, args => '%' :: pyFormatChars rest args
  | c :: rest, args => c :: pyFormatChars rest args

/-- Python format % args on strings. -/
def pyFormat (format : String) (args : List String) : String :=
  String.mk (pyFormatChars format.data args)

/-- The overridden log_message of MyHTTPRequestHandler (serve.py lines
23-25): it prints exactly one line, the formatted message prefixed with
the SERVER tag, reading nothing from the handler state.  The result is
the list of lines the call writes to standard output. -/
def MyHTTPRequestHandler.log_message
    (self : HandlerState) (format : String) (args : List String) : List String :=
  ["[SERVER] " ++ pyFormat format args]

/-- Modelled from the spec: the HTTP library's default log_message, which
the override replaces, writes the client address, a timestamp and the
formatted message to standard error; the library code is not part of this
repository. -/
def defaultLogMessage
    (self : HandlerState) (format : String) (args : List String) : List String :=
  [self.clientAddress ++ " - - [" ++ self.currentTimestamp ++ "] " ++ pyFormat format args]

/-- Modelled from the spec: the HTTP library logs each request by calling
log_message with the standard access-log format string, passing the request
line, the status code and the response size; on MyHTTPRequestHandler this
dispatches to the override.  The library code is not part of this
repository. -/
def log_request (self : HandlerState)
    (requestline : String) (code : String) (size : String) : List String :=
  MyHTTPRequestHandler.log_message self "\"%s\" %s %s" [requestline, code, size]

/-- The document root: an association of root-relative file paths to file
contents (bytes as strings). -/
abbrev FileSystem := List (String × String)

/-- Look up a root-relative path in the document root. -/
def lookupFile : FileSystem → String → Option String
  | [], _ => none
  | (n, c) :: rest, name => if n = name then some c else lookupFile rest name

/-- Modelled from the spec: the HTTP library maps the URL path to a
root-relative file path, resolving the directory path to its index.html;
the library code is not part of this repository. -/
def requestFileName (p : String) : String :=
  if p = "/" then "index.html" else String.mk (p.data.drop 1)

/-- Resolve a request path against the document root. -/
def resolvePath (fs : FileSystem) (p : String) : Option String :=
  lookupFile fs (requestFileName p)

/-- Modelled from the spec: content-type inference of the static file
server; the library code is not part of this repository. -/
def guessContentType (name : String) : String :=
  if name.endsWith ".html" then "text/html" else "application/octet-stream"

/-- A response: status code, final header list, body bytes. -/
structure Response where
  status : Nat
  headers : List Header
  body : String
deriving DecidableEq, Repr

/-- Modelled from the spec: the HTTP library's send_error builds an error
response with the given status; its headers are finalized through
end_headers, hence through the override.  The library code is not part of
this repository. -/
def send_error (code : Nat) (message : String) : Response :=
  { status := code
    headers := MyHTTPRequestHandler.end_headers
      [⟨"Content-type", "text/html;charset=utf-8"⟩, ⟨"Connection", "close"⟩]
    body := message }

/-- Modelled from the spec: the HTTP library's GET handling serves the
resolved file with status 200 and its content, or replies 404 when the
path resolves to no file; headers are finalized through end_headers,
hence through the override.  The library code is not part of this
repository. -/
def MyHTTPRequestHandler.do_GET (fs : FileSystem) (p : String) : Response :=
  match resolvePath fs p with
  | some content =>
      { status := 200
        headers := MyHTTPRequestHandler.end_headers
          [⟨"Content-type", guessContentType (requestFileName p)⟩,
           ⟨"Content-Length", toString content.length⟩]
        body := content }
  | none => send_error 404 "File not found"

/-- A request: an HTTP method and a path. -/
structure Request where
  method : String
  path : String
deriving DecidableEq, Repr

/-- Modelled from the spec: the HTTP library dispatches on the request
method and replies 501 Unsupported method when the handler class defines
no matching method handler; the handler class used here inherits handlers
for GET and HEAD only.  The library code is not part of this repository. -/
def handleRequest (fs : FileSystem) (req : Request) : Response :=
  if req.method = "GET" then MyHTTPRequestHandler.do_GET fs req.path
  else if req.method = "HEAD" then
    let r := MyHTTPRequestHandler.do_GET fs req.path
    { r with body := "" }
  else send_error 501 ("Unsupported method (" ++ req.method ++ ")")

/-- Occurrences of an exact header (name and value) in a header list. -/
def countHeaderExact : List Header → Header → Nat
  | [], _ => 0
  | x :: rest, h => (if x = h then 1 else 0) + countHeaderExact rest h

/-- Occurrences of a header name in a header list. -/
def countHeaderName : List Header → String → Nat
  | [], _ => 0
  | x :: rest, n => (if x.name = n then 1 else 0) + countHeaderName rest n

/-- Python exception values that arise in the script: the interrupt, the
process-exit exception raised by sys.exit, and the OS errors of chdir and
of binding the listening socket. -/
inductive PyExc where
  | keyboardInterrupt : PyExc
  | systemExit : Nat → PyExc
  | fileNotFoundError : String → PyExc
  | osError : String → PyExc
deriving DecidableEq, Repr

/-- Whether the exception class derives from Exception: KeyboardInterrupt
and SystemExit derive only from BaseException, so an except Exception
clause does not catch them. -/
def PyExc.isExceptionSubclass : PyExc → Bool
  | .keyboardInterrupt => false
  | .systemExit _ => false
  | .fileNotFoundError _ => true
  | .osError _ => true

/-- The message text interpolated when the exception is printed. -/
def PyExc.message : PyExc → String
  | .keyboardInterrupt => ""
  | .systemExit c => toString c
  | .fileNotFoundError m => m
  | .osError m => m

/-- The fixed listening port (serve.py line 13). -/
def PORT : Nat := 8080

/-- The bind address passed to the TCP server: the empty host, meaning
all interfaces, and the fixed port (serve.py line 29). -/
def bindAddress : String × Nat := ("", PORT)

/-- The environment a run of the script faces: the launch directory, whether
dist exists under it, whether the port is already bound elsewhere, and the
exception that eventually escapes the serve loop (the loop runs until an
interrupt or an error reaches it). -/
structure Env where
  launchDir : String
  distExists : Bool
  portInUse : Bool
  serveExc : PyExc
deriving DecidableEq, Repr

/-- The module-level chdir into dist (serve.py line 11), executed before
the try block: either the new working directory, or the OS error that the
script leaves uncaught. -/
def chdirDist (env : Env) : Except PyExc String :=
  if env.distExists then Except.ok (env.launchDir ++ "/dist")
  else Except.error (PyExc.fileNotFoundError "[Errno 2] No such file or directory: 'dist'")

/-- The four banner lines printed once the server is bound
(serve.py lines 30-33). -/
def startupBanner (cwd : String) : List String :=
  ["🚀 Server starting at http://localhost:" ++ toString PORT,
   "📁 Serving files from: " ++ cwd,
   "🔍 Open http://localhost:" ++ toString PORT ++ " in your browser",
   "Press Ctrl+C to stop the server"]

/-- The body of the try block (serve.py lines 29-34): binding the server
raises an OS error when the port is taken; otherwise the banner is printed
and serve_forever runs until the environment's exception escapes it.  The
result is the output printed inside the block and the exception leaving it. -/
def tryBody (env : Env) (cwd : String) : List String × PyExc :=
  if env.portInUse then
    ([], PyExc.osError "[Errno 98] Address already in use")
  else
    (startupBanner cwd, env.serveExc)

/-- The except clauses (serve.py lines 35-40), matched in order against the
exception from the try body.  The KeyboardInterrupt clause prints the stop
message and calls sys.exit 0, which raises SystemExit 0; an exception
raised inside a handler propagates past the remaining clauses.  The
Exception clause prints the error message and calls sys.exit 1.  An
exception matching neither clause propagates unchanged.  The result is the
handler's output and the exception that reaches the interpreter. -/
def runHandlers (e : PyExc) : List String × PyExc :=
  if e = PyExc.keyboardInterrupt then
    (["\n🛑 Server stopped"], PyExc.systemExit 0)
  else if e.isExceptionSubclass then
    (["❌ Server error: " ++ e.message], PyExc.systemExit 1)
  else
    ([], e)

/-- The observable outcome of a run: the strings printed to standard
output, whether the interpreter printed an uncaught-exception traceback to
standard error, and the process exit status. -/
structure ProcResult where
  stdoutLines : List String
  tracebackPrinted : Bool
  exitCode : Nat
deriving DecidableEq, Repr

/-- The interpreter's treatment of an exception that escapes the script:
SystemExit ends the process with its code silently; any other uncaught
exception makes the interpreter print a traceback and exit with status 1. -/
def interpreterFinish (out : List String) (e : PyExc) : ProcResult :=
  match e with
  | PyExc.systemExit c => ⟨out, false, c⟩
  | _ => ⟨out, true, 1⟩

/-- A whole run of the script: the module-level chdir, then the try/except
block, then the interpreter's handling of whatever exception escapes. -/
def runServe (env : Env) : ProcResult :=
  match chdirDist env with
  | Except.error e => interpreterFinish [] e
  | Except.ok cwd =>
      let bodyOut := tryBody env cwd
      let handled := runHandlers bodyOut.snd
      interpreterFinish (bodyOut.fst ++ handled.fst) handled.snd

/-- Claim C1: a GET for a path resolving to an existing file returns 200
with that file's bytes and the three CORS headers; a GET for a path
resolving to no file returns 404 with the CORS headers still present; in
particular GET of the root path serves index.html when it exists. -/
theorem get_serves_existing_and_404_missing (fs : FileSystem) (p : String) :
    (∀ content, resolvePath fs p = some content →
      (MyHTTPRequestHandler.do_GET fs p).status = 200 ∧
      (MyHTTPRequestHandler.do_GET fs p).body = content ∧
      ∀ h ∈ corsHeaderList, h ∈ (MyHTTPRequestHandler.do_GET fs p).headers) ∧
    (resolvePath fs p = none →
      (MyHTTPRequestHandler.do_GET fs p).status = 404 ∧
      ∀ h ∈ corsHeaderList, h ∈ (MyHTTPRequestHandler.do_GET fs p).headers) ∧
    (∀ ix, lookupFile fs "index.html" = some ix →
      (MyHTTPRequestHandler.do_GET fs "/").status = 200 ∧
      (MyHTTPRequestHandler.do_GET fs "/").body = ix) := by
  refine ⟨?_, ?_, ?_⟩
  · intro content hc
    simp [MyHTTPRequestHandler.do_GET, hc, MyHTTPRequestHandler.end_headers, corsHeaderList]
  · intro hn
    simp [MyHTTPRequestHandler.do_GET, hn, send_error,
      MyHTTPRequestHandler.end_headers, corsHeaderList]
  · intro ix hix
    have hr : resolvePath fs "/" = some ix := by
      simp [resolvePath, requestFileName, hix]
    simp [MyHTTPRequestHandler.do_GET, hr]

/-- Witness for C1 on the spec's concrete scenario: a root holding only
index.html serves it at the root path with 200, and replies 404 with a CORS
header present for a missing file. -/
theorem get_serves_witness :
    (MyHTTPRequestHandler.do_GET [("index.html", "hello")] "/").status = 200 ∧
    (MyHTTPRequestHandler.do_GET [("index.html", "hello")] "/").body = "hello" ∧
    (MyHTTPRequestHandler.do_GET [("index.html", "hello")] "/missing.txt").status = 404 ∧
    Header.mk "Access-Control-Allow-Origin" "*" ∈
      (MyHTTPRequestHandler.do_GET [("index.html", "hello")] "/missing.txt").headers := by
  refine ⟨?_, ?_, ?_, ?_⟩
  · exact ((get_serves_existing_and_404_missing [("index.html", "hello")] "/").1
      "hello" (by decide)).1
  · exact ((get_serves_existing_and_404_missing [("index.html", "hello")] "/").1
      "hello" (by decide)).2.1
  · exact ((get_serves_existing_and_404_missing [("index.html", "hello")] "/missing.txt").2.1
      (by decide)).1
  · exact ((get_serves_existing_and_404_missing [("index.html", "hello")] "/missing.txt").2.1
      (by decide)).2 (Header.mk "Access-Control-Allow-Origin" "*") (by decide)

/-- Claim C2: every response, for any document root and any request,
carries each of the three CORS headers with exactly its specified value
exactly once, and no other header shares their names. -/
theorem every_response_has_exactly_cors_headers (fs : FileSystem) (req : Request) :
    countHeaderExact (handleRequest fs req).headers ⟨"Access-Control-Allow-Origin", "*"⟩ = 1 ∧
    countHeaderExact (handleRequest fs req).headers
      ⟨"Access-Control-Allow-Methods", "GET, POST, OPTIONS"⟩ = 1 ∧
    countHeaderExact (handleRequest fs req).headers
      ⟨"Access-Control-Allow-Headers", "Content-Type"⟩ = 1 ∧
    countHeaderName (handleRequest fs req).headers "Access-Control-Allow-Origin" = 1 ∧
    countHeaderName (handleRequest fs req).headers "Access-Control-Allow-Methods" = 1 ∧
    countHeaderName (handleRequest fs req).headers "Access-Control-Allow-Headers" = 1 := by
  rcases req with ⟨m, p⟩
  simp only [handleRequest]
  split
  · simp only [MyHTTPRequestHandler.do_GET]
    split
    · simp [MyHTTPRequestHandler.end_headers, corsHeaderList,
        countHeaderExact, countHeaderName]
    · simp [send_error, MyHTTPRequestHandler.end_headers, corsHeaderList,
        countHeaderExact, countHeaderName]
  · split
    · simp only [MyHTTPRequestHandler.do_GET]
      split
      · simp [MyHTTPRequestHandler.end_headers, corsHeaderList,
          countHeaderExact, countHeaderName]
      · simp [send_error, MyHTTPRequestHandler.end_headers, corsHeaderList,
          countHeaderExact, countHeaderName]
    · simp [send_error, MyHTTPRequestHandler.end_headers, corsHeaderList,
        countHeaderExact, countHeaderName]

/-- Claim C3: on startup the script changes into the dist directory under
the launch location; when dist is missing the chdir exception is raised
before the try block, so the interpreter prints the failure and the process
exits with status 1. -/
theorem chdir_dist_and_missing_dist_fatal (env : Env) :
    (env.distExists = true → chdirDist env = Except.ok (env.launchDir ++ "/dist")) ∧
    (env.distExists = false → runServe env = ⟨[], true, 1⟩) := by
  constructor
  · intro h
    simp [chdirDist, h]
  · intro h
    simp [runServe, chdirDist, h, interpreterFinish]

/-- Witness for C3: with dist present the working directory becomes the
dist subdirectory; with dist absent the run prints the failure and exits 1. -/
theorem chdir_dist_witness :
    chdirDist ⟨"/app", true, false, PyExc.keyboardInterrupt⟩ =
      Except.ok ("/app" ++ "/dist") ∧
    runServe ⟨"/app", false, false, PyExc.keyboardInterrupt⟩ = ⟨[], true, 1⟩ :=
  ⟨(chdir_dist_and_missing_dist_fatal ⟨"/app", true, false, PyExc.keyboardInterrupt⟩).1 rfl,
   (chdir_dist_and_missing_dist_fatal ⟨"/app", false, false, PyExc.keyboardInterrupt⟩).2 rfl⟩

/-- Claim C4: logging a request emits exactly one line to standard output,
the standard access-log text prefixed with the SERVER tag, through the
override that replaces the library's default format. -/
theorem log_line_format (self : HandlerState) (requestline code size : String) :
    log_request self requestline code size =
      ["[SERVER] \"" ++ requestline ++ "\" " ++ code ++ " " ++ size] ∧
    (log_request self requestline code size).length = 1 := by
  constructor
  · simp [log_request, MyHTTPRequestHandler.log_message, pyFormat, pyFormatChars,
      String.ext_iff, String.data_append]
  · simp [log_request, MyHTTPRequestHandler.log_message]

/-- Claim C5: when the serve loop is interrupted, the run prints the banner
then the stop message and the process exits with status 0 and no traceback. -/
theorem interrupt_prints_stop_and_exits_zero (env : Env)
    (hd : env.distExists = true) (hp : env.portInUse = false)
    (hi : env.serveExc = PyExc.keyboardInterrupt) :
    runServe env =
      ⟨startupBanner (env.launchDir ++ "/dist") ++ ["\n🛑 Server stopped"], false, 0⟩ := by
  simp [runServe, chdirDist, hd, tryBody, hp, hi, runHandlers, interpreterFinish]

/-- Witness for C5: a concrete interrupted run stops with exit status 0
after printing the stop message. -/
theorem interrupt_witness :
    runServe ⟨"/srv", true, false, PyExc.keyboardInterrupt⟩ =
      ⟨startupBanner ("/srv" ++ "/dist") ++ ["\n🛑 Server stopped"], false, 0⟩ :=
  interrupt_prints_stop_and_exits_zero
    ⟨"/srv", true, false, PyExc.keyboardInterrupt⟩ rfl rfl rfl

/-- Claim C6: every unhandled non-interrupt exception ends the process with
status 1 and a printed error: a missing dist directory triggers the
interpreter's traceback, while a bind conflict or an Exception escaping the
serve loop is caught and printed by the except Exception clause. -/
theorem unhandled_exception_prints_and_exits_one (env : Env) :
    (env.distExists = false →
      (runServe env).exitCode = 1 ∧ (runServe env).tracebackPrinted = true) ∧
    (env.distExists = true → env.portInUse = true →
      (runServe env).exitCode = 1 ∧
      "❌ Server error: [Errno 98] Address already in use" ∈ (runServe env).stdoutLines) ∧
    (env.distExists = true → env.portInUse = false →
      env.serveExc.isExceptionSubclass = true →
      (runServe env).exitCode = 1 ∧
      ("❌ Server error: " ++ env.serveExc.message) ∈ (runServe env).stdoutLines) := by
  refine ⟨?_, ?_, ?_⟩
  · intro h
    simp [runServe, chdirDist, h, interpreterFinish]
  · intro hd hp
    simp [runServe, chdirDist, hd, tryBody, hp, runHandlers,
      PyExc.isExceptionSubclass, PyExc.message, interpreterFinish]
  · intro hd hp hx
    have hne : env.serveExc ≠ PyExc.keyboardInterrupt := by
      intro h
      rw [h] at hx
      simp [PyExc.isExceptionSubclass] at hx
    simp [runServe, chdirDist, hd, tryBody, hp, runHandlers, hne, hx, interpreterFinish]

/-- Witness for C6: the three unhandled failure shapes all exit with
status 1 on concrete runs. -/
theorem unhandled_exception_witness :
    (runServe ⟨"/w1", false, false, PyExc.keyboardInterrupt⟩).exitCode = 1 ∧
    (runServe ⟨"/w2", true, true, PyExc.keyboardInterrupt⟩).exitCode = 1 ∧
    (runServe ⟨"/w3", true, false, PyExc.osError "boom"⟩).exitCode = 1 :=
  ⟨((unhandled_exception_prints_and_exits_one
      ⟨"/w1", false, false, PyExc.keyboardInterrupt⟩).1 rfl).1,
   ((unhandled_exception_prints_and_exits_one
      ⟨"/w2", true, true, PyExc.keyboardInterrupt⟩).2.1 rfl rfl).1,
   ((unhandled_exception_prints_and_exits_one
      ⟨"/w3", true, false, PyExc.osError "boom"⟩).2.2 rfl rfl rfl).1⟩

/-- Claim C7: the server binds all interfaces on fixed port 8080, and when
the port is already in use the run prints only the bind error and exits
with status 1, performing no serving activity of its own. -/
theorem port_conflict_fails_fast (env : Env)
    (hd : env.distExists = true) (hp : env.portInUse = true) :
    PORT = 8080 ∧ bindAddress = ("", 8080) ∧
    runServe env = ⟨["❌ Server error: [Errno 98] Address already in use"], false, 1⟩ := by
  refine ⟨rfl, rfl, ?_⟩
  simp [runServe, chdirDist, hd, tryBody, hp, runHandlers,
    PyExc.isExceptionSubclass, PyExc.message, interpreterFinish]

/-- Witness for C7: a concrete run against a taken port exits 1 after
printing the bind error alone. -/
theorem port_conflict_witness :
    PORT = 8080 ∧ bindAddress = ("", 8080) ∧
    runServe ⟨"/w4", true, true, PyExc.keyboardInterrupt⟩ =
      ⟨["❌ Server error: [Errno 98] Address already in use"], false, 1⟩ :=
  port_conflict_fails_fast ⟨"/w4", true, true, PyExc.keyboardInterrupt⟩ rfl rfl

/-- Claim C8: a request whose method has no handler, such as POST or
OPTIONS, gets the library's default 501 Unsupported method response, still
carrying the CORS headers, rather than a process-level failure. -/
theorem unsupported_method_default_response (fs : FileSystem) (req : Request)
    (h1 : req.method ≠ "GET") (h2 : req.method ≠ "HEAD") :
    handleRequest fs req = send_error 501 ("Unsupported method (" ++ req.method ++ ")") ∧
    (handleRequest fs req).status = 501 ∧
    ∀ h ∈ corsHeaderList, h ∈ (handleRequest fs req).headers := by
  refine ⟨?_, ?_, ?_⟩
  · simp [handleRequest, h1, h2]
  · simp [handleRequest, h1, h2, send_error]
  · simp [handleRequest, h1, h2, send_error,
      MyHTTPRequestHandler.end_headers, corsHeaderList]

/-- Witness for C8: a POST against an empty root gets the 501 response. -/
theorem unsupported_method_witness :
    (handleRequest [] ⟨"POST", "/"⟩).status = 501 ∧
    handleRequest [] ⟨"POST", "/"⟩ =
      send_error 501 ("Unsupported method (" ++ "POST" ++ ")") :=
  ⟨(unsupported_method_default_response [] ⟨"POST", "/"⟩ (by decide) (by decide)).2.1,
   (unsupported_method_default_response [] ⟨"POST", "/"⟩ (by decide) (by decide)).1⟩

/-- Claim C9: SystemExit, raised by sys.exit 0 in the interrupt clause,
passes through the handler chain untouched because it derives only from
BaseException, so an interrupted run always reaches the interpreter with
exit status 0 and is never rerouted into the exit-status-1 error path. -/
theorem sysexit_zero_not_caught_by_except :
    (∀ c, runHandlers (PyExc.systemExit c) = ([], PyExc.systemExit c)) ∧
    PyExc.isExceptionSubclass (PyExc.systemExit 0) = false ∧
    (∀ env : Env, env.distExists = true → env.portInUse = false →
      env.serveExc = PyExc.keyboardInterrupt →
      (runServe env).exitCode = 0 ∧ (runServe env).tracebackPrinted = false ∧
      (runServe env).stdoutLines =
        startupBanner (env.launchDir ++ "/dist") ++ ["\n🛑 Server stopped"]) := by
  refine ⟨?_, rfl, ?_⟩
  · intro c
    simp [runHandlers, PyExc.isExceptionSubclass]
  · intro env hd hp hi
    simp [runServe, chdirDist, hd, tryBody, hp, hi, runHandlers, interpreterFinish]

/-- Witness for C9: the handler chain leaves SystemExit 0 alone and a
concrete interrupted run exits with status 0. -/
theorem sysexit_witness :
    runHandlers (PyExc.systemExit 0) = ([], PyExc.systemExit 0) ∧
    (runServe ⟨"/w5", true, false, PyExc.keyboardInterrupt⟩).exitCode = 0 :=
  ⟨sysexit_zero_not_caught_by_except.1 0,
   (sysexit_zero_not_caught_by_except.2.2
      ⟨"/w5", true, false, PyExc.keyboardInterrupt⟩ rfl rfl rfl).1⟩

/-- Claim C10: the overridden log_message is deterministic in its format
string and arguments alone: two calls agreeing on those emit identical
lines whatever the handler state, and the line carries no client address or
timestamp, only the prefixed formatted message. -/
theorem log_message_state_independent (s1 s2 : HandlerState)
    (format : String) (args : List String) :
    MyHTTPRequestHandler.log_message s1 format args =
      MyHTTPRequestHandler.log_message s2 format args ∧
    MyHTTPRequestHandler.log_message s1 format args =
      ["[SERVER] " ++ pyFormat format args] :=
  ⟨rfl, rfl⟩
